import Mathlib

/-!
Verification of the uiautomator2 core (src/uiautomator2/core.py): transport,
JSON-RPC error classification, lifecycle supervision and recovery policy.
Python strings are embedded as `List Char`; Python's substring operator
`needle in hay` is embedded as `py_contains`.
-/

namespace U2

/-- Python strings, embedded as lists of characters. -/
abbrev PyStr := List Char

/-- Coerce a Lean string literal to the embedding of a Python string. -/
def pstr (s : String) : PyStr := s.data

/-- Does `hay` start with `needle`?  (Helper for the substring test.) -/
def py_startswith : PyStr → PyStr → Bool
  | [], _ => true
  | _ :: _, [] => false
  | a :: as, b :: bs => a == b && py_startswith as bs

/-- Python's `needle in hay` substring containment on strings. -/
def py_contains : PyStr → PyStr → Bool
  | needle, [] => needle.isEmpty
  | needle, b :: bs => py_startswith needle (b :: bs) || py_contains needle bs

/-! ## JSON-RPC error classification (`_jsonrpc_call`, core.py lines 227-243) -/

/-- Outcome of classifying a JSON-RPC error payload.  `pyTypeError` embeds the
untyped `TypeError` Python raises when `stacktrace[:1000]` is evaluated with
`stacktrace = None` (core.py line 242). -/
inductive RpcFailure where
  | uiAutomationNotConnected (msg : PyStr)
  | uiObjectNotFound (code : Option Int) (msg : PyStr) (params : PyStr)
  | rpcStackOverflow (msg : PyStr) (params : PyStr) (trunc : PyStr)
  | rpcUnknown (code : Option Int) (msg : PyStr) (params : PyStr) (stack : Option PyStr)
  | pyTypeError
deriving DecidableEq

/-- Python slice `s[-n:]`: the last `n` characters (the whole string when
shorter than `n`). -/
def py_take_last (s : PyStr) (n : Nat) : PyStr := s.drop (s.length - n)

/-- The stacktrace truncation `stacktrace[:1000] + "..." + stacktrace[-1000:]`
from core.py line 242. -/
def truncate_stacktrace (st : PyStr) : PyStr :=
  st.take 1000 ++ pstr "..." ++ py_take_last st 1000

/-- The error-classification chain of `_jsonrpc_call` (core.py lines 229-243):
`rawText` is `r.text`, `code`/`message`/`dataField` come from the `error`
object (`dataField = none` embeds an absent or null `data`), `params` the
original call params.  Each branch is the corresponding `if "..." in ...`
test of the source, in source order. -/
def classify_rpc_error (rawText : PyStr) (code : Option Int) (message : PyStr)
    (dataField : Option PyStr) (params : PyStr) : RpcFailure :=
  if py_contains (pstr "UiAutomation not connected") rawText then
    .uiAutomationNotConnected (pstr "UiAutomation not connected")
  else if py_contains (pstr "android.os.DeadObjectException") message then
    .uiAutomationNotConnected (pstr "android.os.DeadObjectException")
  else if py_contains (pstr "android.os.DeadSystemRuntimeException") message then
    .uiAutomationNotConnected (pstr "android.os.DeadSystemRuntimeException")
  else if py_contains (pstr "uiautomator.UiObjectNotFoundException") message then
    .uiObjectNotFound code message params
  else if py_contains (pstr "java.lang.StackOverflowError") message then
    match dataField with
    | none => .pyTypeError
    | some st => .rpcStackOverflow message params (truncate_stacktrace st)
  else
    .rpcUnknown code message params dataField

/-- Discriminator: is the classification result a `UiObjectNotFound`? -/
def is_ui_object_not_found : RpcFailure → Bool
  | .uiObjectNotFound _ _ _ => true
  | _ => false

/-! ## RPC request payload (`_jsonrpc_call`, core.py lines 216-221) -/

/-- The JSON-RPC envelope built by `_jsonrpc_call`. -/
structure RpcPayload where
  jsonrpc : String
  id : Nat
  method : String
deriving DecidableEq

/-- Payload construction from core.py lines 216-221: the `id` field is the
literal `1`. -/
def mk_rpc_payload (method : String) : RpcPayload :=
  { jsonrpc := "2.0", id := 1, method := method }

/-- The ids carried by the successive requests of one session, one per call. -/
def session_request_ids (methods : List String) : List Nat :=
  methods.map (fun m => (mk_rpc_payload m).id)

/-! ## Exception classes and the `_http_request` handlers (core.py 183-207) -/

/-- The Python exception classes relevant to `_http_request`.
`socketTimeout` is `socket.timeout` (an alias of `TimeoutError`),
`osError` is `OSError`, `requestsTimeout`/`requestsRequestException` are
`requests.Timeout`/`requests.RequestException`, `adbError` is
`adbutils.AdbError`, and `u2HttpError`/`u2HttpTimeoutError` are the
repository's `HTTPError`/`HTTPTimeoutError`. -/
inductive PyExcClass where
  | socketTimeout
  | osError
  | requestsTimeout
  | requestsRequestException
  | adbError
  | u2HttpError
  | u2HttpTimeoutError
  | u2ConnectError
  | exceptionBase
deriving DecidableEq

/-- Modelled from the spec: `uiautomator2/exceptions.py` is not under src/, so
the class hierarchy is taken from the documented taxonomy and propagation
policy, which places `HttpTimeoutError` below `HttpError` (both are caught by
the facade's `except (HTTPError, ...)` recovery clause).  The remaining edges
are the Python standard library and `requests` hierarchies:
`socket.timeout = TimeoutError <: OSError`,
`requests.Timeout <: requests.RequestException <: IOError = OSError`,
and every class is below `Exception`. -/
def py_superclass : PyExcClass → Option PyExcClass
  | .socketTimeout => some .osError
  | .osError => some .exceptionBase
  | .requestsTimeout => some .requestsRequestException
  | .requestsRequestException => some .osError
  | .adbError => some .exceptionBase
  | .u2HttpError => some .exceptionBase
  | .u2HttpTimeoutError => some .u2HttpError
  | .u2ConnectError => some .exceptionBase
  | .exceptionBase => none

/-- `isinstance` along the (finite, acyclic) superclass chain, with enough
fuel to reach the root. -/
def py_isinstance_fuel : Nat → PyExcClass → PyExcClass → Bool
  | 0, _, _ => false
  | fuel + 1, c, h =>
    c == h ||
      match py_superclass c with
      | none => false
      | some p => py_isinstance_fuel fuel p h

/-- `isinstance(e, h)` for the classes above. -/
def py_isinstance (c h : PyExcClass) : Bool := py_isinstance_fuel 8 c h

/-- The `except` chain at the end of `_http_request` (core.py lines 204-207):
`except requests.Timeout` re-raises as `HTTPTimeoutError`,
`except requests.RequestException` re-raises as `HTTPError`,
anything else propagates unchanged. -/
def http_request_exc_routing (raised : PyExcClass) : PyExcClass :=
  if py_isinstance raised .requestsTimeout then .u2HttpTimeoutError
  else if py_isinstance raised .requestsRequestException then .u2HttpError
  else raised

/-- The distinguishable low-level events of one HTTP exchange. -/
inductive HttpAttempt where
  /-- A response was read; `status` is its HTTP status code. -/
  | response (status : Nat)
  /-- ADB mode: `device.create_connection` raised `adbutils.AdbError`
  (core.py lines 96-100 wrap it as `HTTPError`). -/
  | adbConnectFail
  /-- WiFi mode: `socket.create_connection` exceeded the connect timeout,
  raising `socket.timeout <: OSError` (core.py lines 116-121 wrap every
  `OSError` as `HTTPError`). -/
  | wifiConnectTimeout
  /-- The in-flight read exceeded the socket timeout: `http.client` raises
  `socket.timeout` inside the `try` body. -/
  | readTimeout
deriving DecidableEq

/-- The exception (if any) escaping `_http_request` for each event, after the
raise at line 194 (non-200 status), the connection wrappers, and the
`except` chain at lines 204-207. -/
def http_request_outcome : HttpAttempt → Option PyExcClass
  | .response s =>
      if s == 200 then none
      else some (http_request_exc_routing .u2HttpError)
  | .adbConnectFail => some (http_request_exc_routing .u2HttpError)
  | .wifiConnectTimeout => some (http_request_exc_routing .u2HttpError)
  | .readTimeout => some (http_request_exc_routing .socketTimeout)

/-! ## Health checks (`_check_alive`, core.py lines 268-275 and 380-385) -/

/-- The observable outcome of the `GET /ping` exchange: a response with its
status and body, or a connection-level transport failure (which
`_http_request` surfaces as `HTTPError` in both modes, core.py lines
96-100 and 116-121). -/
inductive PingOutcome where
  | response (status : Nat) (body : String)
  | connectFail
deriving DecidableEq

/-- `BasicUiautomatorServer._check_alive` (core.py lines 380-385): a non-200
status or a transport failure raises `HTTPError`, which the handler turns
into `false`; otherwise the result is `response.content == b"pong"`. -/
def basic_check_alive : PingOutcome → Bool
  | .response s body => if s == 200 then body == "pong" else false
  | .connectFail => false

/-- Result of `WiFiUiautomatorServer._check_alive`: either it returns `True`
or it raises `ConnectError`. -/
inductive WifiCheckResult where
  | alive
  | connectError
deriving DecidableEq

/-- `WiFiUiautomatorServer._check_alive` (core.py lines 268-275): the body of
a 200 response is never inspected; `except Exception` converts every failure
(non-200 `HTTPError`, transport failure) into a raised `ConnectError`. -/
def wifi_check_alive : PingOutcome → WifiCheckResult
  | .response s _ => if s == 200 then .alive else .connectError
  | .connectFail => .connectError

/-! ## Facade recovery (`BasicUiautomatorServer.jsonrpc_call`, core.py 400-408) -/

/-- The typed error kinds of the spec's taxonomy that an RPC call can fail
with. -/
inductive UExc where
  | httpError
  | httpTimeoutError
  | uiAutomationNotConnected
  | uiObjectNotFound
  | rpcStackOverflow
  | rpcUnknown
  | rpcInvalid
deriving DecidableEq

/-- Does the `except (HTTPError, UiAutomationNotConnectedError)` clause of
`jsonrpc_call` (core.py line 404) catch this kind?  Modelled from the spec
for `httpTimeoutError`: `uiautomator2/exceptions.py` is not under src/, and
the spec's propagation policy places `HttpTimeoutError` among the
recovery-triggering kinds, i.e. `HTTPTimeoutError` is a subclass of
`HTTPError` (cf. `py_superclass`), so the clause catches it. -/
def recovery_catches : UExc → Bool
  | .httpError => true
  | .httpTimeoutError => true
  | .uiAutomationNotConnected => true
  | _ => false

/-- Outcome of one underlying `_jsonrpc_call` attempt. -/
inductive CallOutcome where
  | ok (v : Nat)
  | err (e : UExc)
deriving DecidableEq

/-- Observable lifecycle events of the facade during one `jsonrpc_call`. -/
inductive FacadeEv where
  | rpcAttempt
  | stopService
  | startService
deriving DecidableEq

/-- `BasicUiautomatorServer.jsonrpc_call` (core.py lines 400-408), over the
outcomes of the at-most-two underlying `_jsonrpc_call` attempts: a first
failure caught by the `except` clause triggers `stop_uiautomator();
start_uiautomator()` and one retry whose outcome is returned as-is (the
retry is outside any handler); any other failure propagates at once. -/
def jsonrpc_call_facade (first second : CallOutcome) :
    Except UExc Nat × List FacadeEv :=
  match first with
  | .ok v => (.ok v, [.rpcAttempt])
  | .err e =>
    if recovery_catches e then
      match second with
      | .ok v => (.ok v, [.rpcAttempt, .stopService, .startService, .rpcAttempt])
      | .err e2 => (.error e2, [.rpcAttempt, .stopService, .startService, .rpcAttempt])
    else
      (.error e, [.rpcAttempt])

/-! ## Session lock (`BasicUiautomatorServer._lock`, core.py line 294) -/

/-- `_lock = threading.Lock()` appears in the class body of
`BasicUiautomatorServer` (core.py line 294), so it is evaluated exactly once
when the class object is created; this is the identity of that single lock
object. -/
def class_lock_id : Nat := 0

/-- The lock used by instance number `i`: no method ever assigns
`self._lock`, so Python attribute lookup on every instance finds the one
class attribute. -/
def instance_lock_id (_i : Nat) : Nat := class_lock_id

/-! ## Lifecycle supervisor state machine (core.py lines 313-348) -/

/-- The remote device as the supervisor observes it: the md5 of
`/data/local/tmp/u2.jar` if the file exists, whether the `toybox` tool is
available, and whether the server answers `GET /ping` with `pong`. -/
structure Device where
  remoteJarHash : Option PyStr
  hasToybox : Bool
  serverAlive : Bool
deriving DecidableEq

/-- Output of `md5sum <file>` style tools on the device: the hash followed by
the file name, or a "No such file" message. -/
def md5sum_output (remote : Option PyStr) : PyStr :=
  match remote with
  | some h => h ++ pstr "  /data/local/tmp/u2.jar"
  | none => pstr "md5sum: /data/local/tmp/u2.jar: No such file or directory"

/-- The shell output of `toybox md5sum /data/local/tmp/u2.jar` on the
device (an inaccessible-tool message when `toybox` is missing). -/
def shell_toybox_md5sum (d : Device) : PyStr :=
  if d.hasToybox then md5sum_output d.remoteJarHash
  else pstr "/system/bin/sh: toybox: inaccessible or not found"

/-- The shell output of the fallback `md5 /data/local/tmp/u2.jar`. -/
def shell_md5 (d : Device) : PyStr := md5sum_output d.remoteJarHash

/-- `BasicUiautomatorServer._check_device_file_hash` (core.py lines 338-348):
run `toybox md5sum`, fall back to `md5` when the output reports the primary
tool "not found", and test `local_md5 in output`. -/
def check_device_file_hash (localHash : PyStr) (d : Device) : Bool :=
  let output := shell_toybox_md5sum d
  let output :=
    if py_contains (pstr "toybox") output && py_contains (pstr "not found") output
    then shell_md5 d else output
  py_contains localHash output

/-- Supervisor-side state: the device, whether a `self._process` handle is
held and whether that process has exited, plus counters for the externally
visible push and launch effects. -/
structure SupState where
  dev : Device
  hasProcess : Bool
  procExited : Bool
  pushes : Nat
  launches : Nat
deriving DecidableEq

/-- `BasicUiautomatorServer._setup_jar` (core.py lines 329-336): push the
artifact only when the hash check fails; a push makes the remote file's
hash the local hash. -/
def setup_jar (localHash : PyStr) (s : SupState) : SupState :=
  if check_device_file_hash localHash s.dev then s
  else { s with dev := { s.dev with remoteJarHash := some localHash },
                pushes := s.pushes + 1 }

/-- `BasicUiautomatorServer.start_uiautomator` (core.py lines 313-327), one
serialized execution of the locked body in the successful-launch scenario:
setup the jar, drop an exited process handle, and if the health check fails
launch a new process (after which the readiness wait observes the server
alive). -/
def start_uiautomator (localHash : PyStr) (s : SupState) : SupState :=
  let s := setup_jar localHash s
  let s := if s.hasProcess && s.procExited then { s with hasProcess := false } else s
  if s.dev.serverAlive then s
  else { s with hasProcess := true, procExited := false,
                launches := s.launches + 1,
                dev := { s.dev with serverAlive := true } }

/-- The supervisor state of a fresh session: no process, no pushes or
launches yet, server not yet alive. -/
def init_sup_state (remoteHash : Option PyStr) (hasToybox : Bool) : SupState :=
  { dev := { remoteJarHash := remoteHash, hasToybox := hasToybox, serverAlive := false },
    hasProcess := false, procExited := false, pushes := 0, launches := 0 }

/-- `n` serialized `start_uiautomator` calls (the class lock serializes
concurrent callers into such a sequence). -/
def run_starts (localHash : PyStr) : Nat → SupState → SupState
  | 0, s => s
  | n + 1, s => run_starts localHash n (start_uiautomator localHash s)

/-! ## Readiness wait (`_wait_app_process_ready`, core.py lines 354-378) -/

/-- What one iteration of the readiness poll observes: the decoded process
output, whether `self._process.pool()` reports an exit, and whether the
health check succeeds. -/
structure PollObs where
  output : PyStr
  exited : Bool
  alive : Bool
deriving DecidableEq

/-- Result of the readiness wait. -/
inductive WaitResult where
  | alreadyRegistered (out : PyStr)
  | quitUnexpectedly (buf : PyStr)
  | ready
  | notReady (buf : PyStr)
deriving DecidableEq

/-- `_wait_app_process_ready` (core.py lines 366-378) over the sequence of
per-iteration observations (the list length is the number of polls the
deadline allows): append the output to the buffer, then in source order
check the "already registered" marker (raising with the current output
snapshot), premature exit (raising with the buffer), and liveness; an
exhausted deadline raises `LaunchUiAutomationError("server not ready")`. -/
def wait_app_process_ready : List PollObs → PyStr → WaitResult
  | [], buf => .notReady buf
  | o :: rest, buf =>
    let buf2 := buf ++ o.output
    if py_contains (pstr "already registered") o.output then .alreadyRegistered o.output
    else if o.exited then .quitUnexpectedly buf2
    else if o.alive then .ready
    else wait_app_process_ready rest buf2

/-! ## Console output of `_http_request` (core.py lines 142-203) -/

/-- Connection mode of a session, fixing how the printed URL is formed. -/
inductive ConnMode where
  | bridged (devicePort : Nat)
  | direct (host : String) (port : Nat)
deriving DecidableEq

/-- The URL `_http_request` builds (core.py lines 146-152). -/
def url_of : ConnMode → String → String
  | .bridged p, path => "http://127.0.0.1:" ++ toString p ++ path
  | .direct h p, path => "http://" ++ h ++ ":" ++ toString p ++ path

/-- One line printed to standard output by `_http_request`; the `curl` line
carries the method, the URL and the serialized body (`"null"` for a falsy
`data`). -/
inductive OutLine where
  | curl (method url bodyRepr : String)
  | timeoutNote
  | requestFields
  | responseDump
deriving DecidableEq

/-- The sequence of lines `_http_request` prints for one successful exchange:
the unguarded `print` at line 155, the two request lines guarded by
`print_request` (lines 157-164), and the response dump guarded by
`print_request` (lines 197-202).  `dataS` is `json.dumps(data)` when `data`
is truthy, `none` otherwise. -/
def http_request_prints (mode : ConnMode) (method path : String)
    (dataS : Option String) (print_request : Bool) : List OutLine :=
  [.curl method (url_of mode path) (dataS.getD "null")]
    ++ (if print_request then [.timeoutNote, .requestFields] else [])
    ++ (if print_request then [.responseDump] else [])

/-! ## Helper lemmas -/

theorem py_startswith_self_append (l t : PyStr) : py_startswith l (l ++ t) = true := by
  induction l with
  | nil => rfl
  | cons a as ih => simp [py_startswith, ih]

theorem py_contains_nil_left (t : PyStr) : py_contains [] t = true := by
  cases t with
  | nil => rfl
  | cons b bs => simp [py_contains, py_startswith]

/-- A string contains itself followed by anything (used for md5 outputs). -/
theorem py_contains_self_append (l t : PyStr) : py_contains l (l ++ t) = true := by
  cases l with
  | nil => exact py_contains_nil_left t
  | cons a as =>
    have h : py_startswith (a :: as) ((a :: as) ++ t) = true := py_startswith_self_append _ t
    simp only [List.cons_append, py_contains, Bool.or_eq_true]
    left
    simpa using h

/-- The hash check never reads the liveness flag of the device. -/
theorem check_hash_ignores_alive (lh : PyStr) (r : Option PyStr) (tb a b : Bool) :
    check_device_file_hash lh ⟨r, tb, a⟩ = check_device_file_hash lh ⟨r, tb, b⟩ := rfl

/-- After the artifact has been pushed, the shell hash query reports the
local hash (through the primary tool or the fallback), so the check
succeeds. -/
theorem check_hash_after_push (lh : PyStr) (tb b : Bool) :
    check_device_file_hash lh ⟨some lh, tb, b⟩ = true := by
  cases tb with
  | false =>
    have key : check_device_file_hash lh ⟨some lh, false, b⟩
        = py_contains lh (lh ++ pstr "  /data/local/tmp/u2.jar") := rfl
    rw [key]
    exact py_contains_self_append lh (pstr "  /data/local/tmp/u2.jar")
  | true =>
    simp only [check_device_file_hash, shell_toybox_md5sum, shell_md5, md5sum_output,
      if_true, ite_self]
    exact py_contains_self_append lh (pstr "  /data/local/tmp/u2.jar")

/-- After `_setup_jar` the hash check always succeeds: either it already did,
or the push made the remote hash the local one. -/
theorem setup_jar_check (lh : PyStr) (s : SupState) :
    check_device_file_hash lh (setup_jar lh s).dev = true := by
  rcases s with ⟨⟨r, tb, a⟩, hp, pe, pu, la⟩
  simp only [setup_jar]
  split
  · next h => simpa using h
  · exact check_hash_after_push lh tb a

theorem setup_jar_preserves (lh : PyStr) (s : SupState) :
    (setup_jar lh s).dev.hasToybox = s.dev.hasToybox
    ∧ (setup_jar lh s).dev.serverAlive = s.dev.serverAlive
    ∧ (setup_jar lh s).launches = s.launches
    ∧ (setup_jar lh s).hasProcess = s.hasProcess
    ∧ (setup_jar lh s).procExited = s.procExited := by
  rcases s with ⟨⟨r, tb, a⟩, hp, pe, pu, la⟩
  simp only [setup_jar]
  split <;> simp

/-- One `start_uiautomator` performs at most one push. -/
theorem start_uiautomator_pushes_le (lh : PyStr) (s : SupState) :
    (start_uiautomator lh s).pushes ≤ s.pushes + 1 := by
  rcases s with ⟨⟨r, tb, a⟩, hp, pe, pu, la⟩
  simp only [start_uiautomator, setup_jar]
  split_ifs <;> simp

/-- When the hash already matches, `start_uiautomator` pushes nothing and the
check still succeeds afterwards. -/
theorem start_uiautomator_no_push (lh : PyStr) (s : SupState)
    (h : check_device_file_hash lh s.dev = true) :
    (start_uiautomator lh s).pushes = s.pushes := by
  rcases s with ⟨⟨r, tb, a⟩, hp, pe, pu, la⟩
  simp only [start_uiautomator, setup_jar]
  split_ifs <;> simp_all

/-- Setting the liveness flag does not change the hash check. -/
theorem check_hash_set_alive (lh : PyStr) (d : Device) :
    check_device_file_hash lh { d with serverAlive := true }
      = check_device_file_hash lh d := by
  rcases d with ⟨r, tb, a⟩
  rfl

/-- After any `start_uiautomator` the hash check succeeds. -/
theorem start_uiautomator_check (lh : PyStr) (s : SupState) :
    check_device_file_hash lh (start_uiautomator lh s).dev = true := by
  have h0 := setup_jar_check lh s
  simp only [start_uiautomator]
  split_ifs <;> simp_all [check_hash_set_alive]

/-- After any `start_uiautomator` the server is alive. -/
theorem start_uiautomator_alive (lh : PyStr) (s : SupState) :
    (start_uiautomator lh s).dev.serverAlive = true := by
  rcases s with ⟨⟨r, tb, a⟩, hp, pe, pu, la⟩
  simp only [start_uiautomator, setup_jar]
  split_ifs <;> simp_all

/-- A `start_uiautomator` on an already-alive server launches nothing. -/
theorem start_uiautomator_alive_no_launch (lh : PyStr) (s : SupState)
    (h : s.dev.serverAlive = true) :
    (start_uiautomator lh s).launches = s.launches := by
  rcases s with ⟨⟨r, tb, a⟩, hp, pe, pu, la⟩
  simp only [start_uiautomator, setup_jar]
  split_ifs <;> simp_all

/-- The first `start_uiautomator` of a fresh session launches exactly once. -/
theorem start_uiautomator_first_launch (lh : PyStr) (rh : Option PyStr) (tb : Bool) :
    (start_uiautomator lh (init_sup_state rh tb)).launches = 1 := by
  simp only [start_uiautomator, setup_jar, init_sup_state]
  split_ifs <;> simp_all

/-- Once the hash check succeeds, any further serialized starts push
nothing. -/
theorem run_starts_no_push (lh : PyStr) :
    ∀ (m : Nat) (s : SupState), check_device_file_hash lh s.dev = true →
      (run_starts lh m s).pushes = s.pushes := by
  intro m
  induction m with
  | zero => intro s _; rfl
  | succ k ih =>
    intro s h
    have step : run_starts lh (k + 1) s
        = run_starts lh k (start_uiautomator lh s) := rfl
    rw [step, ih _ (start_uiautomator_check lh s), start_uiautomator_no_push lh s h]

/-- Once the server is alive, any further serialized starts launch
nothing. -/
theorem run_starts_no_launch (lh : PyStr) :
    ∀ (m : Nat) (s : SupState), s.dev.serverAlive = true →
      (run_starts lh m s).launches = s.launches := by
  intro m
  induction m with
  | zero => intro s _; rfl
  | succ k ih =>
    intro s h
    have step : run_starts lh (k + 1) s
        = run_starts lh k (start_uiautomator lh s) := rfl
    rw [step, ih _ (start_uiautomator_alive lh s),
      start_uiautomator_alive_no_launch lh s h]

/-! ## Claim theorems -/

/-- C1: a `jsonrpc_call` on the bridged facade that fails with `HttpError`,
`HttpTimeoutError` or `UiAutomationNotConnected` performs exactly one
stop+start recovery cycle and one retry, the retry's error propagating
unchanged with no second cycle; every other error kind propagates
immediately without any stop/start. -/
theorem jsonrpc_call_recovery_policy (e : UExc) (second : CallOutcome) :
    (recovery_catches e = true →
      (jsonrpc_call_facade (.err e) second).2
          = [.rpcAttempt, .stopService, .startService, .rpcAttempt]
        ∧ ∀ e2, second = .err e2 →
            (jsonrpc_call_facade (.err e) second).1 = .error e2)
    ∧ (recovery_catches e = false →
        jsonrpc_call_facade (.err e) second = (.error e, [.rpcAttempt]))
    ∧ recovery_catches .httpError = true
    ∧ recovery_catches .httpTimeoutError = true
    ∧ recovery_catches .uiAutomationNotConnected = true
    ∧ recovery_catches .uiObjectNotFound = false
    ∧ recovery_catches .rpcStackOverflow = false
    ∧ recovery_catches .rpcUnknown = false
    ∧ recovery_catches .rpcInvalid = false := by
  refine ⟨?_, ?_, rfl, rfl, rfl, rfl, rfl, rfl, rfl⟩
  · intro h
    constructor
    · cases second <;> simp [jsonrpc_call_facade, h]
    · intro e2 h2
      subst h2
      simp [jsonrpc_call_facade, h]
  · intro h
    simp [jsonrpc_call_facade, h]

/-- C1 witness: a first failure with `UiAutomationNotConnected` followed by a
retry failing with `RpcUnknown` yields one stop+start cycle and the retry's
error. -/
theorem jsonrpc_call_recovery_policy_witness :
    (jsonrpc_call_facade (.err .uiAutomationNotConnected) (.err .rpcUnknown)).2
        = [.rpcAttempt, .stopService, .startService, .rpcAttempt]
    ∧ (jsonrpc_call_facade (.err .uiAutomationNotConnected) (.err .rpcUnknown)).1
        = .error .rpcUnknown :=
  ⟨((jsonrpc_call_recovery_policy .uiAutomationNotConnected
      (.err .rpcUnknown)).1 (by decide)).1,
   ((jsonrpc_call_recovery_policy .uiAutomationNotConnected
      (.err .rpcUnknown)).1 (by decide)).2 .rpcUnknown rfl⟩

/-- C2 counterexample: a message containing `UiObjectNotFoundException` but
not the qualified pattern `uiautomator.UiObjectNotFoundException` classifies
as `RpcUnknown`, not `UiObjectNotFound` as the claim states. -/
theorem classify_bare_uiobject_pattern_counterexample :
    classify_rpc_error (pstr "") (some 0)
        (pstr "UiObjectNotFoundException: no object matched") none (pstr "[]")
      = .rpcUnknown (some 0)
          (pstr "UiObjectNotFoundException: no object matched") (pstr "[]") none
    ∧ is_ui_object_not_found (classify_rpc_error (pstr "") (some 0)
        (pstr "UiObjectNotFoundException: no object matched") none (pstr "[]"))
      = false := by
  exact ⟨by decide, by decide⟩

/-- C2 (amended): classification is evaluated in fixed table order — raw text
containing "UiAutomation not connected" or message containing
"android.os.DeadObjectException" or "android.os.DeadSystemRuntimeException"
gives `UiAutomationNotConnected`; otherwise a message containing
"uiautomator.UiObjectNotFoundException" gives `UiObjectNotFound` with code,
message and params; otherwise a message containing
"java.lang.StackOverflowError" gives `RpcStackOverflow`; anything else is
`RpcUnknown` with code, message and stacktrace. -/
theorem classify_rpc_error_table (raw : PyStr) (code : Option Int) (msg : PyStr)
    (dataField : Option PyStr) (params : PyStr) :
    (py_contains (pstr "UiAutomation not connected") raw = true →
      classify_rpc_error raw code msg dataField params
        = .uiAutomationNotConnected (pstr "UiAutomation not connected"))
    ∧ (py_contains (pstr "UiAutomation not connected") raw = false →
       py_contains (pstr "android.os.DeadObjectException") msg = true →
      classify_rpc_error raw code msg dataField params
        = .uiAutomationNotConnected (pstr "android.os.DeadObjectException"))
    ∧ (py_contains (pstr "UiAutomation not connected") raw = false →
       py_contains (pstr "android.os.DeadObjectException") msg = false →
       py_contains (pstr "android.os.DeadSystemRuntimeException") msg = true →
      classify_rpc_error raw code msg dataField params
        = .uiAutomationNotConnected (pstr "android.os.DeadSystemRuntimeException"))
    ∧ (py_contains (pstr "UiAutomation not connected") raw = false →
       py_contains (pstr "android.os.DeadObjectException") msg = false →
       py_contains (pstr "android.os.DeadSystemRuntimeException") msg = false →
       py_contains (pstr "uiautomator.UiObjectNotFoundException") msg = true →
      classify_rpc_error raw code msg dataField params
        = .uiObjectNotFound code msg params)
    ∧ (py_contains (pstr "UiAutomation not connected") raw = false →
       py_contains (pstr "android.os.DeadObjectException") msg = false →
       py_contains (pstr "android.os.DeadSystemRuntimeException") msg = false →
       py_contains (pstr "uiautomator.UiObjectNotFoundException") msg = false →
       py_contains (pstr "java.lang.StackOverflowError") msg = true →
       ∀ st, dataField = some st →
      classify_rpc_error raw code msg dataField params
        = .rpcStackOverflow msg params (truncate_stacktrace st))
    ∧ (py_contains (pstr "UiAutomation not connected") raw = false →
       py_contains (pstr "android.os.DeadObjectException") msg = false →
       py_contains (pstr "android.os.DeadSystemRuntimeException") msg = false →
       py_contains (pstr "uiautomator.UiObjectNotFoundException") msg = false →
       py_contains (pstr "java.lang.StackOverflowError") msg = false →
      classify_rpc_error raw code msg dataField params
        = .rpcUnknown code msg params dataField) := by
  refine ⟨?_, ?_, ?_, ?_, ?_, ?_⟩
  · intro h1
    simp [classify_rpc_error, h1]
  · intro h1 h2
    simp [classify_rpc_error, h1, h2]
  · intro h1 h2 h3
    simp [classify_rpc_error, h1, h2, h3]
  · intro h1 h2 h3 h4
    simp [classify_rpc_error, h1, h2, h3, h4]
  · intro h1 h2 h3 h4 h5 st hst
    subst hst
    simp [classify_rpc_error, h1, h2, h3, h4, h5]
  · intro h1 h2 h3 h4 h5
    simp [classify_rpc_error, h1, h2, h3, h4, h5]

/-- C2 witness: the qualified patterns classify as the table says at concrete
inputs. -/
theorem classify_rpc_error_table_witness :
    classify_rpc_error (pstr "") (some (-32002))
        (pstr "androidx.test.uiautomator.UiObjectNotFoundException: sel") none
        (pstr "[]")
      = .uiObjectNotFound (some (-32002))
          (pstr "androidx.test.uiautomator.UiObjectNotFoundException: sel")
          (pstr "[]") :=
  (classify_rpc_error_table (pstr "") (some (-32002))
      (pstr "androidx.test.uiautomator.UiObjectNotFoundException: sel") none
      (pstr "[]")).2.2.2.1
    (by decide) (by decide) (by decide) (by decide)

/-- C3 counterexample: in a two-call session both requests carry id 1, so the
second call's id is not strictly greater than the first's. -/
theorem session_request_ids_counterexample :
    (session_request_ids ["deviceInfo", "objInfo"]).getD 0 0 = 1
    ∧ (session_request_ids ["deviceInfo", "objInfo"]).getD 1 0 = 1
    ∧ ¬ ((session_request_ids ["deviceInfo", "objInfo"]).getD 0 0
          < (session_request_ids ["deviceInfo", "objInfo"]).getD 1 0) := by
  exact ⟨rfl, rfl, by decide⟩

/-- C3 (amended): every RPC request of a session carries the constant id 1
(so the first call does send id 1, but later calls repeat it instead of
incrementing). -/
theorem session_request_ids_all_one (methods : List String) :
    session_request_ids methods = List.replicate methods.length 1 := by
  induction methods with
  | nil => rfl
  | cons m ms ih =>
    simp [session_request_ids, mk_rpc_payload, List.replicate] at *

/-- C4: a non-200 response raises `HTTPError`, but a read that exceeds the
timeout escapes as the raw `socket.timeout` (and a WiFi connect timeout is
wrapped as `HTTPError`), never as `HTTPTimeoutError`: the handlers catch
`requests.Timeout`/`requests.RequestException`, which `socket.timeout` is
not an instance of. -/
theorem http_request_timeout_misrouting :
    http_request_outcome (.response 500) = some .u2HttpError
    ∧ http_request_outcome (.response 200) = none
    ∧ http_request_outcome .readTimeout = some .socketTimeout
    ∧ PyExcClass.socketTimeout ≠ PyExcClass.u2HttpTimeoutError
    ∧ http_request_outcome .wifiConnectTimeout = some .u2HttpError
    ∧ py_isinstance .socketTimeout .requestsTimeout = false
    ∧ py_isinstance .socketTimeout .requestsRequestException = false := by
  decide

/-- C5 counterexample: in direct-network mode a 200 response whose body is
not `pong` still makes `_check_alive` succeed, contradicting the claimed
body check for both modes. -/
theorem wifi_check_alive_body_counterexample :
    wifi_check_alive (.response 200 "OK") = .alive
    ∧ ("OK" : String) ≠ "pong" := by
  exact ⟨rfl, by decide⟩

/-- C5 (amended): the bridged health check succeeds iff the `/ping` response
has status 200 and body exactly `pong` (anything else reports not-alive),
while the direct-network check succeeds iff the response status is 200
regardless of body, and any other outcome raises `ConnectError` instead of
reporting not-alive. -/
theorem check_alive_modes (o : PingOutcome) :
    (basic_check_alive o = true ↔ o = .response 200 "pong")
    ∧ (wifi_check_alive o = .alive ↔ ∃ b, o = .response 200 b) := by
  cases o with
  | response s body =>
    by_cases hs : s = 200
    · subst hs
      constructor
      · simp [basic_check_alive]
      · simp [wifi_check_alive]
    · constructor
      · simp [basic_check_alive, hs]
      · simp [wifi_check_alive, hs]
  | connectFail =>
    constructor
    · simp [basic_check_alive]
    · simp [wifi_check_alive]

/-- C5 witness: the modes evaluated at concrete outcomes. -/
theorem check_alive_modes_witness :
    basic_check_alive (.response 200 "pong") = true
    ∧ wifi_check_alive (.response 200 "anything") = .alive
    ∧ basic_check_alive (.response 200 "anything") = false :=
  ⟨(check_alive_modes (.response 200 "pong")).1.mpr rfl,
   (check_alive_modes (.response 200 "anything")).2.mpr ⟨"anything", rfl⟩,
   by
    have h := (check_alive_modes (.response 200 "anything")).1
    revert h
    decide⟩

/-- C10: the curl-style line (method, URL, serialized body) is printed on
every HTTP exchange in both modes even with `print_request` disabled, which
gates only the additional timing and response output. -/
theorem curl_line_unconditional (mode : ConnMode) (method path : String)
    (dataS : Option String) :
    http_request_prints mode method path dataS false
      = [.curl method (url_of mode path) (dataS.getD "null")]
    ∧ OutLine.curl method (url_of mode path) (dataS.getD "null")
        ∈ http_request_prints mode method path dataS true := by
  constructor
  · simp [http_request_prints]
  · simp [http_request_prints]

/-- C6 counterexample: two distinct `BasicUiautomatorServer` instances use
the same lock object — `_lock = threading.Lock()` is a class attribute
created once, so instance attribute lookup finds one shared lock, refuting
"distinct session instances are guarded by distinct locks". -/
theorem instance_lock_shared_counterexample :
    instance_lock_id 0 = instance_lock_id 1
    ∧ instance_lock_id 0 = class_lock_id
    ∧ instance_lock_id 1 = class_lock_id :=
  ⟨rfl, rfl, rfl⟩

/-- C6 (amended): every `BasicUiautomatorServer` instance is guarded by the
one class-level lock (so lifecycle transitions of distinct sessions do
serialize with each other), and the serialized `start()` calls of a
not-yet-running session create exactly one process launch in total. -/
theorem class_lock_shared_single_launch (i j n : Nat) (rh : Option PyStr)
    (tb : Bool) (lh : PyStr) :
    instance_lock_id i = instance_lock_id j
    ∧ (run_starts lh (n + 1) (init_sup_state rh tb)).launches = 1 := by
  refine ⟨rfl, ?_⟩
  have step : run_starts lh (n + 1) (init_sup_state rh tb)
      = run_starts lh n (start_uiautomator lh (init_sup_state rh tb)) := rfl
  rw [step,
    run_starts_no_launch lh n _ (start_uiautomator_alive lh (init_sup_state rh tb)),
    start_uiautomator_first_launch lh rh tb]

/-- C7: every `start()` runs the hash-checked install — once the remote hash
matches the local artifact (in particular right after a push) the check
succeeds and the push is skipped — so any number of serialized `start()`
calls with an unchanged artifact perform at most one push in total. -/
theorem setup_jar_idempotent (n : Nat) (rh : Option PyStr) (tb b : Bool)
    (lh : PyStr) :
    (run_starts lh n (init_sup_state rh tb)).pushes ≤ 1
    ∧ check_device_file_hash lh ⟨some lh, tb, b⟩ = true := by
  refine ⟨?_, check_hash_after_push lh tb b⟩
  cases n with
  | zero => exact Nat.zero_le 1
  | succ m =>
    have step : run_starts lh (m + 1) (init_sup_state rh tb)
        = run_starts lh m (start_uiautomator lh (init_sup_state rh tb)) := rfl
    rw [step,
      run_starts_no_push lh m _ (start_uiautomator_check lh (init_sup_state rh tb))]
    have h1 := start_uiautomator_pushes_le lh (init_sup_state rh tb)
    simpa [init_sup_state] using h1

/-- C8: in the readiness poll, as soon as an iteration observes output
containing "already registered" (any earlier iterations having observed no
marker, no exit and no liveness), the wait fails at once with
`AccessibilityAlreadyRegistered`, regardless of that iteration's exit and
liveness observations and of everything that would have followed — no part
of the remaining timeout is waited out. -/
theorem wait_ready_already_registered_short_circuit
    (pre : List PollObs) (o : PollObs) (rest : List PollObs) (buf : PyStr)
    (hpre : ∀ p ∈ pre, py_contains (pstr "already registered") p.output = false
        ∧ p.exited = false ∧ p.alive = false)
    (ho : py_contains (pstr "already registered") o.output = true) :
    wait_app_process_ready (pre ++ o :: rest) buf
      = .alreadyRegistered o.output := by
  induction pre generalizing buf with
  | nil => simp [wait_app_process_ready, ho]
  | cons p ps ih =>
    have hp := hpre p (List.mem_cons_self p ps)
    simp only [List.cons_append, wait_app_process_ready, hp.1, hp.2.1, hp.2.2]
    simpa using ih (buf ++ p.output)
      (fun q hq => hpre q (List.mem_cons_of_mem p hq))

/-- C8 witness: a marker observed in the second iteration (with
exit and liveness simultaneously observable) aborts at once, with further
iterations remaining. -/
theorem wait_ready_already_registered_witness :
    wait_app_process_ready
        [⟨pstr "INFO: Starting Server", false, false⟩,
         ⟨pstr "Proxy@5deffd5already registered!", true, true⟩,
         ⟨pstr "", false, true⟩] (pstr "")
      = .alreadyRegistered (pstr "Proxy@5deffd5already registered!") :=
  wait_ready_already_registered_short_circuit
    [⟨pstr "INFO: Starting Server", false, false⟩]
    ⟨pstr "Proxy@5deffd5already registered!", true, true⟩
    [⟨pstr "", false, true⟩] (pstr "") (by decide) (by decide)

/-- C9: when the error message matches the StackOverflowError pattern and no
earlier pattern applies, an absent or null `error.data` makes the classifier
hit Python's untyped `TypeError` (from slicing `None`) instead of producing
`RpcStackOverflow`; moreover for a stacktrace of at most 1000 characters the
"first 1000 + last 1000" truncation duplicates the whole text. -/
theorem classify_stackoverflow_requires_stacktrace
    (raw : PyStr) (code : Option Int) (msg : PyStr) (params : PyStr)
    (h1 : py_contains (pstr "UiAutomation not connected") raw = false)
    (h2 : py_contains (pstr "android.os.DeadObjectException") msg = false)
    (h3 : py_contains (pstr "android.os.DeadSystemRuntimeException") msg = false)
    (h4 : py_contains (pstr "uiautomator.UiObjectNotFoundException") msg = false)
    (h5 : py_contains (pstr "java.lang.StackOverflowError") msg = true) :
    classify_rpc_error raw code msg none params = .pyTypeError
    ∧ ∀ st : PyStr, st.length ≤ 1000 →
        truncate_stacktrace st = st ++ pstr "..." ++ st := by
  constructor
  · simp [classify_rpc_error, h1, h2, h3, h4, h5]
  · intro st hst
    unfold truncate_stacktrace py_take_last
    rw [List.take_of_length_le hst, Nat.sub_eq_zero_of_le hst, List.drop_zero]

/-- C9 witness: a StackOverflowError message with absent `data` yields the
TypeError outcome, and a short stacktrace is duplicated whole by the
truncation. -/
theorem classify_stackoverflow_requires_stacktrace_witness :
    classify_rpc_error (pstr "") (some 0)
        (pstr "java.lang.StackOverflowError: stack size 8192KB") none (pstr "[]")
      = .pyTypeError
    ∧ truncate_stacktrace (pstr "at A.b") = pstr "at A.b" ++ pstr "..." ++ pstr "at A.b" :=
  ⟨(classify_stackoverflow_requires_stacktrace (pstr "") (some 0)
      (pstr "java.lang.StackOverflowError: stack size 8192KB") (pstr "[]")
      (by decide) (by decide) (by decide) (by decide) (by decide)).1,
   (classify_stackoverflow_requires_stacktrace (pstr "") (some 0)
      (pstr "java.lang.StackOverflowError: stack size 8192KB") (pstr "[]")
      (by decide) (by decide) (by decide) (by decide) (by decide)).2
     (pstr "at A.b") (by decide)⟩

end U2
